import Mathlib

/-!
Verification of the chatbot-ai repository: a shallow embedding of the
client chat hook (`src/hooks/useChat.ts`, cached variant), the completion
relay endpoint (`src/app/api/chat/route.ts`), the history endpoint
(`src/unnamed/part_005`, the ETag-aware variant of
`src/app/api/chat/history/route.ts`), the bulk-delete endpoint
(`src/app/api/chat/delete-all/route.ts`) and the message cipher wrapper
(`src/unnamed/part_001`, `lib/encryption.ts`).

Machine integers, byte strings and timestamps are modelled as `Nat`;
fallible operations return `Except`/`Option`; the external AEAD primitive
(node `crypto` AES-256-GCM) is modelled as a CTR-style XOR keystream plus
a parametric authentication-tag function, so every theorem about the
wrapper holds for an arbitrary instantiation of the primitive.
-/

namespace ChatApp

/-! ### Message cipher wrapper (`lib/encryption.ts`) -/

/-- GCM authentication tags are 16 bytes (32 hex characters: the wrapper
slices `encryptedData.slice(-32)` off the hex string). -/
def gcmTagLen : Nat := 16

/-- Normalise a tag to exactly `gcmTagLen` bytes (the primitive always
produces a 16-byte tag; this keeps an arbitrary instantiation honest). -/
def padTag (t : List Nat) : List Nat :=
  (t ++ List.replicate gcmTagLen 0).take gcmTagLen

/-- CTR-style keystream encryption: byte `i` of the plaintext is XORed
with byte `i` of the keystream derived from key and IV. This is the
block-cipher-counter core of AES-GCM with the block cipher abstracted
into the keystream function `ks`. -/
def ctrXor (ks : Nat → Nat → Nat → Nat) (key iv : Nat) : Nat → List Nat → List Nat
  | _, [] => []
  | i, b :: bs => (b ^^^ (ks key iv i % 256)) :: ctrXor ks key iv (i + 1) bs

/-- Result of `encrypt`: the ciphertext with the auth tag appended
(`encrypted + authTag.toString("hex")`) and the IV used. -/
structure EncryptResult where
  encryptedData : List Nat
  iv : Nat
deriving DecidableEq, Repr

/-- Embeds `encrypt(text)` from `lib/encryption.ts`: encrypt with
AES-256-GCM under the process key and a fresh IV (here passed in, since
`randomBytes(16)` is external randomness), then append the auth tag to
the ciphertext. `tagF` is the GHASH-based tag of GCM, abstracted. -/
def encrypt (ks : Nat → Nat → Nat → Nat) (tagOf : Nat → Nat → List Nat → List Nat)
    (key iv : Nat) (text : List Nat) : EncryptResult :=
  let ct := ctrXor ks key iv 0 text
  { encryptedData := ct ++ padTag (tagOf key iv ct), iv := iv }

/-- Embeds `decrypt(encryptedData, iv)` from `lib/encryption.ts`: split
the last 16 bytes off as the auth tag, verify it, and decrypt; any
failure (GCM auth failure in `decipher.final`) is caught and re-thrown
as `Error("Failed to decrypt message")`, modelled as `Except.error`. -/
def decrypt (ks : Nat → Nat → Nat → Nat) (tagOf : Nat → Nat → List Nat → List Nat)
    (key : Nat) (encryptedData : List Nat) (iv : Nat) : Except String (List Nat) :=
  let n := encryptedData.length - gcmTagLen
  let authTag := encryptedData.drop n
  let ct := encryptedData.take n
  if padTag (tagOf key iv ct) = authTag then
    .ok (ctrXor ks key iv 0 ct)
  else
    .error "Failed to decrypt message"

/-! ### Server data model (Prisma `Chat` and `Message` records) -/

/-- A persisted message row: ciphertext `content` plus its `iv` (or the
marker `"legacy"` for pre-encryption rows). -/
structure StoredMessage where
  id : String
  content : String
  role : String
  createdAt : Nat
  chatId : String
  iv : String
deriving DecidableEq, Repr

/-- A conversation row. `messages` is kept in `createdAt`-ascending order,
matching the `orderBy: { createdAt: "asc" }` include used by the routes. -/
structure Chat where
  id : String
  userEmail : String
  updatedAt : Nat
  messages : List StoredMessage
deriving DecidableEq, Repr

/-- The conversation store: all chat rows, across users. -/
abbrev DB := List Chat

/-- Embeds `prisma.chat.findFirst({ where: { user: { email } }, orderBy:
{ updatedAt: "desc" } })`: the caller's most recently modified chat. -/
def findFirstChat (db : DB) (email : String) : Option Chat :=
  (db.filter (fun c => c.userEmail == email)).foldl
    (fun best c =>
      match best with
      | none => some c
      | some b => if b.updatedAt < c.updatedAt then some c else some b)
    none

/-- Embeds `prisma.chat.findUnique({ where: { id } })`. -/
def findChatById (db : DB) (cid : String) : Option Chat :=
  db.find? (fun c => c.id == cid)

/-- Embeds `prisma.message.create`: appends a message row to its chat. -/
def appendMessage (db : DB) (cid : String) (m : StoredMessage) : DB :=
  db.map (fun c => if c.id == cid then { c with messages := c.messages ++ [m] } else c)

/-- Embeds `prisma.chat.deleteMany({ where: { user: { email } } })`. -/
def deleteChatsOf (db : DB) (email : String) : DB :=
  db.filter (fun c => c.userEmail != email)

/-! ### HTTP response model -/

/-- Body of a `NextResponse`: a JSON payload, a JSON `{ error }` object,
or the `null` body used for 304 responses. -/
inductive Payload (β : Type) where
  | json (body : β)
  | jsonError (msg : String)
  | empty
deriving DecidableEq, Repr

/-- A response together with the caching headers the routes set. -/
structure HttpResponse (β : Type) where
  status : Nat
  payload : Payload β
  etag : Option String := none
  cacheControl : Option String := none
  vary : Option String := none
deriving DecidableEq, Repr

/-! ### History endpoint (`GET /api/chat/history`, ETag variant) -/

/-- JSON body of a full history response. -/
structure HistoryBody where
  chatId : Option String
  messages : List StoredMessage
deriving DecidableEq, Repr

/-- Per-message decryption with the route's try/catch: legacy rows pass
through, decryption failure is substituted with the visible placeholder.
`dec` is the `decrypt(content, iv)` wrapper of `lib/encryption.ts`. -/
def decryptStoredMessage (dec : String → String → Except String String)
    (m : StoredMessage) : StoredMessage :=
  if m.iv = "legacy" then m
  else
    match dec m.content m.iv with
    | .ok plain => { m with content := plain }
    | .error _ => { m with content := "⚠️ Message could not be decrypted" }

/-- The string hashed for the ETag: `` `${id}-${updatedAt.getTime()}-${count}` ``. -/
def etagData (c : Chat) : String :=
  c.id ++ "-" ++ toString c.updatedAt ++ "-" ++ toString c.messages.length

/-- The quoted ETag; `hash` models `crypto.createHash("md5")...digest("hex")`. -/
def etagOf (hash : String → String) (c : Chat) : String :=
  "\"" ++ hash (etagData c) ++ "\""

def historyCacheControl : String := "private, max-age=300"

/-- Embeds the ETag-aware history `GET`: 401 without a session; an empty
200 with the `"empty"` ETag for a user with no chat; 304 with no body on
an `If-None-Match` match; otherwise the full decrypted payload. The
second `findFirstChat` mirrors the route's second `prisma.chat.findFirst`
(full fetch after the summary query). -/
def historyGET (hash : String → String) (dec : String → String → Except String String)
    (session : Option String) (ifNoneMatch : Option String) (db : DB) :
    HttpResponse HistoryBody :=
  match session with
  | none => { status := 401, payload := .jsonError "Please sign in to access chat history" }
  | some email =>
    match findFirstChat db email with
    | none =>
        { status := 200, payload := .json { chatId := none, messages := [] },
          etag := some "\"empty\"", cacheControl := some historyCacheControl }
    | some chatSummary =>
        let etag := etagOf hash chatSummary
        if ifNoneMatch = some etag then
          { status := 304, payload := .empty, etag := some etag,
            cacheControl := some historyCacheControl }
        else
          match findFirstChat db email with
          | none =>
              { status := 200, payload := .json { chatId := none, messages := [] },
                etag := some "\"empty\"", cacheControl := some historyCacheControl }
          | some chat =>
              { status := 200,
                payload := .json { chatId := some chat.id,
                                   messages := chat.messages.map (decryptStoredMessage dec) },
                etag := some etag, cacheControl := some historyCacheControl,
                vary := some "Authorization" }

/-! ### Completion relay endpoint (`POST /api/chat`) -/

/-- An item of the request body's `messages` array. -/
structure ClientWireMessage where
  role : String
  content : String
deriving DecidableEq, Repr

/-- The request body `{ messages, chatId? }`. -/
structure ChatPostBody where
  messages : List ClientWireMessage
  chatId : Option String
deriving DecidableEq, Repr

/-- Outcome of the synchronous part of the relay `POST` (up to returning
the streaming `Response`): status, error body if any, the store after the
user message was persisted, and the conversation id used for streaming. -/
structure ChatPostResult where
  status : Nat
  error : Option String
  db : DB
  chatId : Option String
deriving DecidableEq, Repr

/-- Embeds the relay `POST` up to opening the stream: session check, last
message content check, conversation resolution (`findUnique` when a
truthy `chatId` is supplied, `create` otherwise), the ownership check
`!chat || chat.user.email !== session.user.email`, then the encrypted
persistence of the user message. `enc` is `encrypt` of
`lib/encryption.ts` (content to ciphertext and iv); `newChatId` and
`newMsgId` stand in for the ids the database generates. -/
def chatPOST (enc : String → String × String) (session : Option String)
    (body : ChatPostBody) (newChatId newMsgId : String) (now : Nat) (db : DB) :
    ChatPostResult :=
  match session with
  | none => { status := 401, error := some "Unauthorized", db := db, chatId := none }
  | some email =>
    match body.messages.getLast? with
    | none => { status := 400, error := some "No message content provided", db := db, chatId := none }
    | some lastMessage =>
      if lastMessage.content = "" then
        { status := 400, error := some "No message content provided", db := db, chatId := none }
      else
        let created : Option Chat × DB :=
          let newChat : Chat :=
            { id := newChatId, userEmail := email, updatedAt := now, messages := [] }
          (some newChat, db ++ [newChat])
        let resolved : Option Chat × DB :=
          match body.chatId with
          | some cid => if cid = "" then created else (findChatById db cid, db)
          | none => created
        match resolved.1 with
        | none => { status := 401, error := some "Unauthorized", db := resolved.2, chatId := none }
        | some chat =>
          if chat.userEmail = email then
            let e := enc lastMessage.content
            { status := 200, error := none,
              db := appendMessage resolved.2 chat.id
                { id := newMsgId, content := e.1, role := "user",
                  createdAt := now, chatId := chat.id, iv := e.2 },
              chatId := some chat.id }
          else
            { status := 401, error := some "Unauthorized", db := resolved.2, chatId := none }

/-- A server-sent event written by the relay: either a `data:` JSON with
`{ content, role, chatId }` or the structured `{ error }` event. -/
inductive SSE where
  | data (content role chatId : String)
  | error (msg : String)
deriving DecidableEq, Repr

/-- Outcome of the relay's async stream pump. -/
structure PumpResult where
  events : List SSE
  closed : Bool
  db : DB
deriving DecidableEq, Repr

/-- Embeds the async pump of the relay `POST`: every nonempty upstream
fragment is forwarded as a data event and accumulated; on clean stream
end the concatenation is encrypted and persisted as one assistant
message; if the upstream iterator raises after `chunks`, the catch block
writes the structured error event instead and nothing is persisted; the
`finally` closes the writer in both cases. -/
def relayPump (enc : String → String × String) (chatId newMsgId : String) (now : Nat)
    (chunks : List String) (upstreamFails : Bool) (db : DB) : PumpResult :=
  let delivered := chunks.filter (fun t => t != "")
  let events := delivered.map (fun t => SSE.data t "assistant" chatId)
  if upstreamFails then
    { events := events ++ [SSE.error "Error during streaming"], closed := true, db := db }
  else
    let assistantMessage := String.join delivered
    let e := enc assistantMessage
    { events := events, closed := true,
      db := appendMessage db chatId
        { id := newMsgId, content := e.1, role := "assistant",
          createdAt := now, chatId := chatId, iv := e.2 } }

/-! ### Client chat hook (`src/hooks/useChat.ts`, cached variant) -/

/-- Message role, the `"user" | "assistant"` union. -/
inductive Role where
  | user
  | assistant
deriving DecidableEq, Repr

/-- Delivery status, the `"pending" | "delivered" | "failed"` union. -/
inductive Status where
  | pending
  | delivered
  | failed
deriving DecidableEq, Repr

/-- The hook's `ChatMessage` interface. -/
structure ChatMessage where
  id : String
  role : Role
  content : String
  timestamp : Option Nat := none
  status : Option Status := none
  tempId : Option String := none
deriving DecidableEq, Repr

/-- The hook's `CacheData` slot held in `cacheRef`. -/
structure CacheData where
  messages : List ChatMessage
  chatId : Option String
  lastUpdated : Nat
  etag : Option String := none
deriving DecidableEq, Repr

/-- The hook's state: the rendered message list, the input field, the
loading flag, the current conversation id, the single cache slot, and
`lastFetchTime` (the instant of the last history fetch). -/
structure ChatState where
  messages : List ChatMessage
  input : String
  isLoading : Bool
  currentChatId : Option String
  cache : Option CacheData
  lastFetchTime : Nat
deriving DecidableEq, Repr

/-- `CACHE_DURATION = 5 * 60 * 1000` milliseconds. -/
def CACHE_DURATION : Nat := 5 * 60 * 1000

/-- A message of the history endpoint's JSON as the client reads it. -/
structure WireMessage where
  id : String
  role : Role
  content : String
  createdAt : Nat
deriving DecidableEq, Repr

/-- Outcome of the history fetch: a network rejection, or a response
with status, parsed body and `etag` header. -/
inductive HistoryNet where
  | reject
  | response (status : Nat) (messages : List WireMessage) (chatId : Option String)
      (etag : Option String)
deriving DecidableEq, Repr

/-- Result of one `loadChatHistory` call: the next hook state, the
`If-None-Match` header of the fetch if one was issued (`none` means no
network request at all), and whether the failure alert fired. -/
structure LoadResult where
  state : ChatState
  request : Option (Option String)
  alerted : Bool
deriving DecidableEq, Repr

/-- The `If-None-Match` value attached to a fetch: the slot's etag when
present and truthy. -/
def cacheEtagHeader (cache : Option CacheData) : Option String :=
  match cache with
  | some slot =>
      match slot.etag with
      | some e => if e = "" then none else some e
      | none => none
  | none => none

/-- The client-side projection of one fetched message: user messages get
status `delivered`, assistant messages get no status. -/
def processWireMessage (m : WireMessage) : ChatMessage :=
  { id := m.id, role := m.role, content := m.content, timestamp := some m.createdAt,
    status := if m.role = Role.user then some Status.delivered else none }

/-- The fetch-and-process path of `loadChatHistory` (taken when the cache
check fails): 304 with a live slot refreshes `lastFetchTime` only; a
non-ok status or a rejection alerts and leaves the state untouched; a
full response replaces slot, messages and `lastFetchTime` wholesale. -/
def loadViaFetch (st : ChatState) (now : Nat) (net : HistoryNet) : LoadResult :=
  let header := cacheEtagHeader st.cache
  match net with
  | .reject => { state := st, request := some header, alerted := true }
  | .response status msgs chatId etag =>
      if status = 304 ∧ st.cache.isSome then
        { state := { st with lastFetchTime := now }, request := some header, alerted := false }
      else if 200 ≤ status ∧ status < 300 then
        let processed := msgs.map processWireMessage
        let newEtag : Option String :=
          match etag with
          | some e => if e = "" then none else some e
          | none => none
        let newCache : CacheData :=
          { messages := processed, chatId := chatId, lastUpdated := now, etag := newEtag }
        { state := { st with
            messages := processed,
            cache := some newCache,
            lastFetchTime := now,
            currentChatId :=
              match chatId with
              | some c => if c = "" then st.currentChatId else some c
              | none => st.currentChatId },
          request := some header, alerted := false }
      else
        { state := st, request := some header, alerted := true }

/-- Embeds `loadChatHistory(forceRefresh)`: serve the slot with no fetch
when `!forceRefresh && cacheRef.current && now - lastFetchTime <
CACHE_DURATION`, otherwise fetch with the conditional header. -/
def loadChatHistory (st : ChatState) (forceRefresh : Bool) (now : Nat) (net : HistoryNet) :
    LoadResult :=
  match st.cache with
  | some slot =>
      if forceRefresh = false ∧ now - st.lastFetchTime < CACHE_DURATION then
        { state := { st with messages := slot.messages, currentChatId := slot.chatId },
          request := none, alerted := false }
      else
        loadViaFetch st now net
  | none => loadViaFetch st now net

/-- Embeds `addMessageOptimistically`: append to the rendered list and
mirror the new list into the cache slot. -/
def addMessageOptimistically (st : ChatState) (message : ChatMessage) (now : Nat) : ChatState :=
  let newMessages := st.messages ++ [message]
  { st with messages := newMessages,
            cache := st.cache.map (fun slot =>
              { slot with messages := newMessages, lastUpdated := now }) }

/-- Embeds `updateMessageStatus`: set the status of the message whose
`id` or `tempId` matches, mirroring into the cache slot. -/
def updateMessageStatus (st : ChatState) (messageId : String) (status : Status) (now : Nat) :
    ChatState :=
  let newMessages := st.messages.map (fun m =>
    if m.id = messageId ∨ m.tempId = some messageId then { m with status := some status } else m)
  { st with messages := newMessages,
            cache := st.cache.map (fun slot =>
              { slot with messages := newMessages, lastUpdated := now }) }

/-- The sentinel id `"streaming"` of the in-progress assistant reply. -/
def streamingSentinel : String := "streaming"

/-- One fragment arrival inside the read loop: every message with the
sentinel id is filtered out and a fresh placeholder carrying the whole
accumulated content is appended (replacement, not in-place mutation). -/
def applyStreamChunk (st : ChatState) (streamedContent : String) (now : Nat) : ChatState :=
  let others := st.messages.filter (fun m => m.id != streamingSentinel)
  let newMessages := others ++
    [{ id := streamingSentinel, role := Role.assistant, content := streamedContent,
       status := some Status.pending }]
  { st with messages := newMessages,
            cache := st.cache.map (fun slot =>
              { slot with messages := newMessages, lastUpdated := now }) }

/-- The `if (data.chatId && !currentChatId)` update of the read loop;
`origChatId` is the render-closure value of `currentChatId`. -/
def applyChunkChatId (st : ChatState) (origChatId : Option String) (evChatId : Option String) :
    ChatState :=
  match evChatId with
  | some c =>
      if c = "" then st
      else if origChatId = none then
        { st with currentChatId := some c,
                  cache := st.cache.map (fun slot => { slot with chatId := some c }) }
      else st
  | none => st

/-- One parsed `data:` event of the relay stream. -/
structure StreamEvent where
  content : Option String := none
  chatId : Option String := none
deriving DecidableEq, Repr

/-- Processing of one stream event: accumulate and replace the
placeholder when `data.content` is truthy, then the chatId update. The
`String` component is the running `streamedContent`. -/
def streamStep (origChatId : Option String) (now : Nat) (p : ChatState × String)
    (ev : StreamEvent) : ChatState × String :=
  let (st1, acc1) :=
    match ev.content with
    | some c => if c = "" then (p.1, p.2) else (applyStreamChunk p.1 (p.2 ++ c) now, p.2 ++ c)
    | none => (p.1, p.2)
  (applyChunkChatId st1 origChatId ev.chatId, acc1)

/-- The read loop over all stream events, returning every intermediate
state together with the final state and accumulated content. -/
def runStream (origChatId : Option String) (now : Nat) :
    ChatState × String → List StreamEvent → List ChatState × (ChatState × String)
  | p, [] => ([], p)
  | p, ev :: rest =>
      let q := streamStep origChatId now p ev
      let r := runStream origChatId now q rest
      (q.1 :: r.1, r.2)

/-- Embeds the post-loop replacement: drop the placeholder, append the
finalized assistant message with a permanent id and status `delivered`,
update the cache slot and invalidate its etag. -/
def finalizeStream (st : ChatState) (finalId : String) (content : String) (now : Nat) :
    ChatState :=
  let permanentMessages := st.messages.filter (fun m => m.id != streamingSentinel)
  let finalMessage : ChatMessage :=
    { id := finalId, role := Role.assistant, content := content,
      timestamp := some now, status := some Status.delivered }
  let newMessages := permanentMessages ++ [finalMessage]
  { st with messages := newMessages,
            cache := st.cache.map (fun slot =>
              { slot with messages := newMessages, lastUpdated := now, etag := none }) }

/-- Text of the synthetic assistant message appended by the catch block. -/
def errorFallbackText : String := "Sorry, I encountered an error. Please try again."

/-- The catch block of `handleSubmit`: append an assistant message with
status `failed`. -/
def appendErrorMessage (st : ChatState) (errId : String) (now : Nat) : ChatState :=
  addMessageOptimistically st
    { id := errId, role := Role.assistant, content := errorFallbackText,
      timestamp := some now, status := some Status.failed } now

/-- Outcome of the `fetch("/api/chat")` call: the promise rejects (no
network), the response is not ok, or an ok response streaming the given
events to completion. -/
inductive SendOutcome where
  | reject
  | httpError (status : Nat)
  | stream (events : List StreamEvent)
deriving DecidableEq, Repr

/-- JavaScript `String.prototype.trim`: strip leading and trailing
whitespace (a structural model of the external builtin). -/
def jsTrim (s : String) : String :=
  String.mk (((s.data.dropWhile Char.isWhitespace).reverse.dropWhile Char.isWhitespace).reverse)

/-- The optimistic user message built at the top of `handleSubmit`:
temporary id, pending status, content from the input field. -/
def submitUserMessage (st : ChatState) (tempId : String) (now : Nat) : ChatMessage :=
  { id := tempId, tempId := some tempId, role := Role.user, content := st.input,
    timestamp := some now, status := some Status.pending }

/-- The state right after the optimistic insert: the pending user message
appended, the input field cleared, `isLoading` set. -/
def submitInsert (st : ChatState) (tempId : String) (now : Nat) : ChatState :=
  { addMessageOptimistically st (submitUserMessage st tempId now) now with
    input := "", isLoading := true }

/-- Embeds `handleSubmit` as the sequence of states the hook passes
through: the guard on blank input, the optimistic insert of the pending
user message (with input cleared and `isLoading` set), then per outcome
the failure paths or the streaming loop plus finalization. `tempId`,
`finalId` and `errId` stand in for the `crypto.randomUUID()` draws. -/
def handleSubmitTrace (st : ChatState) (tempId finalId errId : String) (now : Nat)
    (outcome : SendOutcome) : List ChatState :=
  if jsTrim st.input = "" then [st]
  else
    let st1 := submitInsert st tempId now
    match outcome with
    | .reject =>
        [st, st1, { appendErrorMessage st1 errId now with isLoading := false }]
    | .httpError _ =>
        let stF := updateMessageStatus st1 tempId Status.failed now
        [st, st1, stF, { appendErrorMessage stF errId now with isLoading := false }]
    | .stream events =>
        let stD := updateMessageStatus st1 tempId Status.delivered now
        let r := runStream st.currentChatId now (stD, "") events
        [st, st1, stD] ++ r.1 ++
          [{ finalizeStream r.2.1 finalId r.2.2 now with isLoading := false }]

/-- The state `handleSubmit` leaves the hook in. -/
def handleSubmit (st : ChatState) (tempId finalId errId : String) (now : Nat)
    (outcome : SendOutcome) : ChatState :=
  (handleSubmitTrace st tempId finalId errId now outcome).getLastD st

/-- Number of rendered messages carrying the sentinel streaming id. -/
def countStreamingIn : List ChatMessage → Nat
  | [] => 0
  | m :: l => (if m.id = streamingSentinel then 1 else 0) + countStreamingIn l

/-- Number of messages of a state carrying the sentinel streaming id. -/
def countStreaming (st : ChatState) : Nat :=
  countStreamingIn st.messages

/-! ### Bulk delete endpoint (`DELETE /api/chat/delete-all`) -/

/-- JSON body of a successful bulk delete. -/
structure DeleteBody where
  message : String
deriving DecidableEq, Repr

/-- Embeds the bulk-delete `DELETE`: 401 without a session, otherwise all
of the caller's chats are removed. -/
def deleteAllDELETE (session : Option String) (db : DB) : HttpResponse DeleteBody × DB :=
  match session with
  | none => ({ status := 401, payload := .jsonError "Unauthorized" }, db)
  | some email =>
      ({ status := 200, payload := .json { message := "All chats deleted successfully" } },
       deleteChatsOf db email)

/-! ### Concrete instantiations of the abstract parameters -/

/-- A sample keystream function (stands in for the AES-CTR keystream). -/
def ksW : Nat → Nat → Nat → Nat := fun key iv i => key + iv + i

/-- A sample tag function (stands in for GHASH): key byte, iv byte, then
the ciphertext. -/
def tagOfW : Nat → Nat → List Nat → List Nat := fun key iv ct => key % 256 :: iv % 256 :: ct

/-- A sample string-level `encrypt`. -/
def encW : String → String × String := fun s => (s ++ "!", "iv0")

/-- A sample string-level `decrypt` that fails exactly on iv `"bad"`. -/
def decW : String → String → Except String String :=
  fun c iv => if iv = "bad" then .error "boom" else .ok c

/-- A sample md5-hex stand-in. -/
def hashW : String → String := fun s => s

/-- A stored message whose decryption succeeds. -/
def mGoodW : StoredMessage :=
  { id := "s1", content := "CT1", role := "user", createdAt := 1, chatId := "c1", iv := "iv1" }

/-- A stored message whose decryption fails (iv `"bad"` under `decW`). -/
def mBadW : StoredMessage :=
  { id := "s2", content := "CT2", role := "assistant", createdAt := 2, chatId := "c1", iv := "bad" }

/-- A conversation of user `u@example.com` with both messages. -/
def chatW : Chat :=
  { id := "c1", userEmail := "u@example.com", updatedAt := 10, messages := [mGoodW, mBadW] }

def dbW : DB := [chatW]

/-- A conversation owned by a different user. -/
def otherChatW : Chat :=
  { id := "c9", userEmail := "other@example.com", updatedAt := 5, messages := [] }

def dbOtherW : DB := [otherChatW]

/-- A rendered message for the cache-hit witness. -/
def slotMsgW : ChatMessage :=
  { id := "m1", role := Role.user, content := "hi", status := some Status.delivered }

/-- A populated cache slot. -/
def slotW : CacheData :=
  { messages := [slotMsgW], chatId := some "c1", lastUpdated := 100, etag := some "\"e\"" }

/-- Hook state holding the populated slot, fetched at t = 100. -/
def stCachedW : ChatState :=
  { messages := [], input := "", isLoading := false, currentChatId := none,
    cache := some slotW, lastFetchTime := 100 }

/-- Fresh hook state with `"hello"` typed into the input field. -/
def stFreshW : ChatState :=
  { messages := [], input := "hello", isLoading := false, currentChatId := none,
    cache := none, lastFetchTime := 0 }

/-- A relay request body addressing conversation `"c9"`. -/
def bodyW : ChatPostBody :=
  { messages := [{ role := "user", content := "hi" }], chatId := some "c9" }

end ChatApp

namespace ChatApp

/-! ### Cipher wrapper lemmas -/

theorem padTag_length (t : List Nat) : (padTag t).length = gcmTagLen := by
  simp [padTag, gcmTagLen]

theorem ctrXor_ctrXor (ks : Nat → Nat → Nat → Nat) (key iv : Nat) :
    ∀ (i : Nat) (bs : List Nat), ctrXor ks key iv i (ctrXor ks key iv i bs) = bs := by
  intro i bs
  induction bs generalizing i with
  | nil => rfl
  | cons b bs ih =>
      simp [ctrXor, ih, Nat.xor_assoc]

theorem decrypt_append (ks : Nat → Nat → Nat → Nat) (tagOf : Nat → Nat → List Nat → List Nat)
    (key iv : Nat) (ct t : List Nat) :
    decrypt ks tagOf key (ct ++ padTag t) iv =
      if padTag (tagOf key iv ct) = padTag t then .ok (ctrXor ks key iv 0 ct)
      else .error "Failed to decrypt message" := by
  have hlen : (ct ++ padTag t).length - gcmTagLen = ct.length := by
    simp [padTag_length]
  have htake : (ct ++ padTag t).take ((ct ++ padTag t).length - gcmTagLen) = ct := by
    rw [hlen, List.take_left]
  have hdrop : (ct ++ padTag t).drop ((ct ++ padTag t).length - gcmTagLen) = padTag t := by
    rw [hlen, List.drop_left]
  simp only [decrypt, htake, hdrop]

/-- C4: decrypting the result of `encrypt` with the same key and the
nonce it produced recovers the plaintext; with a wrong nonce or a
tampered ciphertext the authentication tag no longer verifies (the
hypotheses state exactly that the abstract tag function distinguishes the
altered input, which is the contract of the external AEAD primitive) and
`decrypt` fails closed with `Error("Failed to decrypt message")` instead
of returning corrupted plaintext. -/
theorem cipher_roundtrip_and_fail_closed
    (ks : Nat → Nat → Nat → Nat) (tagOf : Nat → Nat → List Nat → List Nat)
    (key iv iv2 : Nat) (text ct2 : List Nat)
    (hnonce : padTag (tagOf key iv2 (ctrXor ks key iv 0 text)) ≠
      padTag (tagOf key iv (ctrXor ks key iv 0 text)))
    (htamper : padTag (tagOf key iv ct2) ≠ padTag (tagOf key iv (ctrXor ks key iv 0 text))) :
    decrypt ks tagOf key (encrypt ks tagOf key iv text).encryptedData
        (encrypt ks tagOf key iv text).iv = .ok text
    ∧ decrypt ks tagOf key (encrypt ks tagOf key iv text).encryptedData iv2 =
        .error "Failed to decrypt message"
    ∧ decrypt ks tagOf key (ct2 ++ padTag (tagOf key iv (ctrXor ks key iv 0 text))) iv =
        .error "Failed to decrypt message" := by
  refine ⟨?_, ?_, ?_⟩
  · show decrypt ks tagOf key
      (ctrXor ks key iv 0 text ++ padTag (tagOf key iv (ctrXor ks key iv 0 text))) iv = _
    rw [decrypt_append, if_pos rfl, ctrXor_ctrXor]
  · show decrypt ks tagOf key
      (ctrXor ks key iv 0 text ++ padTag (tagOf key iv (ctrXor ks key iv 0 text))) iv2 = _
    rw [decrypt_append, if_neg hnonce]
  · rw [decrypt_append, if_neg htamper]

/-- Witness for C4 at a concrete keystream, tag function, key, nonce and
plaintext; the wrong nonce is 6 and the tampered ciphertext is all
zeroes. -/
theorem cipher_roundtrip_and_fail_closed_witness :
    decrypt ksW tagOfW 3 (encrypt ksW tagOfW 3 5 [10, 20, 30]).encryptedData
        (encrypt ksW tagOfW 3 5 [10, 20, 30]).iv = .ok [10, 20, 30]
    ∧ decrypt ksW tagOfW 3 (encrypt ksW tagOfW 3 5 [10, 20, 30]).encryptedData 6 =
        .error "Failed to decrypt message"
    ∧ decrypt ksW tagOfW 3 ([0, 0, 0] ++ padTag (tagOfW 3 5 (ctrXor ksW 3 5 0 [10, 20, 30]))) 5 =
        .error "Failed to decrypt message" :=
  cipher_roundtrip_and_fail_closed ksW tagOfW 3 5 6 [10, 20, 30] [0, 0, 0]
    (by decide) (by decide)

/-! ### History endpoint theorems -/

/-- C3: fingerprints computed from identical (conversation id,
last-modified time, message count) triples coincide, and a request
presenting that fingerprint in `If-None-Match` against server state
carrying the same triple receives a 304 response with no body. -/
theorem fingerprint_deterministic_and_conditional_304
    (hash : String → String) (dec : String → String → Except String String)
    (email : String) (db : DB) (c1 c2 : Chat)
    (hid : c1.id = c2.id) (hupd : c1.updatedAt = c2.updatedAt)
    (hcount : c1.messages.length = c2.messages.length)
    (hfind : findFirstChat db email = some c2) :
    etagOf hash c1 = etagOf hash c2
    ∧ (historyGET hash dec (some email) (some (etagOf hash c1)) db).status = 304
    ∧ (historyGET hash dec (some email) (some (etagOf hash c1)) db).payload = Payload.empty := by
  have hetag : etagOf hash c1 = etagOf hash c2 := by
    simp [etagOf, etagData, hid, hupd, hcount]
  refine ⟨hetag, ?_, ?_⟩ <;> simp [historyGET, hfind, hetag]

/-- Witness for C3: the fingerprint of `chatW` matches itself and yields
304 with an empty body. -/
theorem fingerprint_deterministic_and_conditional_304_witness :
    etagOf hashW chatW = etagOf hashW chatW
    ∧ (historyGET hashW decW (some "u@example.com") (some (etagOf hashW chatW)) dbW).status = 304
    ∧ (historyGET hashW decW (some "u@example.com") (some (etagOf hashW chatW)) dbW).payload =
        Payload.empty :=
  fingerprint_deterministic_and_conditional_304 hashW decW "u@example.com" dbW chatW chatW
    rfl rfl rfl (by decide)

/-- C8: an authenticated user with zero conversations gets a successful
response with an empty message list, a null conversation id and the
constant `"empty"` fingerprint token (stable across all such users and
stores), not an error. -/
theorem empty_account_history_empty_with_stable_etag
    (hash : String → String) (dec : String → String → Except String String)
    (email : String) (ifNoneMatch : Option String) (db : DB)
    (h : findFirstChat db email = none) :
    historyGET hash dec (some email) ifNoneMatch db =
      { status := 200, payload := .json { chatId := none, messages := [] },
        etag := some "\"empty\"", cacheControl := some historyCacheControl } := by
  simp [historyGET, h]

/-- Witness for C8 on the empty store. -/
theorem empty_account_history_empty_with_stable_etag_witness :
    historyGET hashW decW (some "u@example.com") none [] =
      { status := 200, payload := .json { chatId := none, messages := [] },
        etag := some "\"empty\"", cacheControl := some historyCacheControl } :=
  empty_account_history_empty_with_stable_etag hashW decW "u@example.com" none [] rfl

/-- C9: when decryption of an individual stored message fails, the
failure is caught per message: the response is still a 200 carrying every
message, the failing message's content is the visible placeholder, and
every message whose decryption succeeds is returned decrypted. -/
theorem per_message_decrypt_failure_isolated
    (hash : String → String) (dec : String → String → Except String String)
    (email : String) (ifNoneMatch : Option String) (db : DB)
    (chat : Chat) (bad : StoredMessage) (e : String)
    (hfind : findFirstChat db email = some chat)
    (hnm : ifNoneMatch ≠ some (etagOf hash chat))
    (hmem : bad ∈ chat.messages)
    (hleg : bad.iv ≠ "legacy")
    (hfail : dec bad.content bad.iv = .error e) :
    (historyGET hash dec (some email) ifNoneMatch db).status = 200
    ∧ (historyGET hash dec (some email) ifNoneMatch db).payload =
        .json { chatId := some chat.id,
                messages := chat.messages.map (decryptStoredMessage dec) }
    ∧ (decryptStoredMessage dec bad).content = "⚠️ Message could not be decrypted"
    ∧ (∀ m ∈ chat.messages, m.iv ≠ "legacy" → ∀ p, dec m.content m.iv = .ok p →
        (decryptStoredMessage dec m).content = p) := by
  refine ⟨?_, ?_, ?_, ?_⟩
  · simp [historyGET, hfind, hnm]
  · simp [historyGET, hfind, hnm]
  · simp [decryptStoredMessage, hleg, hfail]
  · intro m _ hl p hp
    simp [decryptStoredMessage, hl, hp]

/-- Witness for C9: in `dbW` the message `mBadW` fails to decrypt under
`decW` while `mGoodW` succeeds. -/
theorem per_message_decrypt_failure_isolated_witness :
    (historyGET hashW decW (some "u@example.com") none dbW).status = 200
    ∧ (historyGET hashW decW (some "u@example.com") none dbW).payload =
        .json { chatId := some chatW.id,
                messages := chatW.messages.map (decryptStoredMessage decW) }
    ∧ (decryptStoredMessage decW mBadW).content = "⚠️ Message could not be decrypted"
    ∧ (∀ m ∈ chatW.messages, m.iv ≠ "legacy" → ∀ p, decW m.content m.iv = .ok p →
        (decryptStoredMessage decW m).content = p) :=
  per_message_decrypt_failure_isolated hashW decW "u@example.com" none dbW chatW mBadW "boom"
    (by decide) (by decide) (by decide) (by decide) rfl

/-! ### Relay and delete endpoint theorems -/

/-- C5: when the upstream iterator raises after the given fragments, the
pump appends the structured error event after the already-forwarded data
events, the stream is closed, and nothing is persisted: the store is
returned unchanged, so fragments streamed before the error are not
saved. -/
theorem upstream_error_forwards_event_and_persists_nothing
    (enc : String → String × String) (chatId newMsgId : String) (now : Nat)
    (chunks : List String) (db : DB) :
    (relayPump enc chatId newMsgId now chunks true db).db = db
    ∧ (relayPump enc chatId newMsgId now chunks true db).closed = true
    ∧ (relayPump enc chatId newMsgId now chunks true db).events =
        (chunks.filter (fun t => t != "")).map (fun t => SSE.data t "assistant" chatId)
        ++ [SSE.error "Error during streaming"] :=
  ⟨rfl, rfl, rfl⟩

/-- C7: with no authenticated session, the history GET, the relay POST
and the bulk DELETE all answer 401, and neither the POST nor the DELETE
touches the store: no conversation is created, no message is persisted,
no record is deleted. -/
theorem unauthenticated_requests_rejected_without_side_effects
    (hash : String → String) (dec : String → String → Except String String)
    (ifNoneMatch : Option String) (enc : String → String × String)
    (body : ChatPostBody) (newChatId newMsgId : String) (now : Nat) (db : DB) :
    (historyGET hash dec none ifNoneMatch db).status = 401
    ∧ (chatPOST enc none body newChatId newMsgId now db).status = 401
    ∧ (chatPOST enc none body newChatId newMsgId now db).db = db
    ∧ (deleteAllDELETE none db).1.status = 401
    ∧ (deleteAllDELETE none db).2 = db :=
  ⟨rfl, rfl, rfl, rfl, rfl⟩

/-- C10 fails as stated: a relay POST supplying an explicit `chatId` that
matches no conversation is answered 400, not 401, when its message list
is empty, because the content validation runs before the conversation
lookup. -/
theorem explicit_chatid_claim_counterexample :
    (chatPOST encW (some "u@example.com")
        { messages := [], chatId := some "nope" } "nc" "nm" 0 []).status = 400
    ∧ (chatPOST encW (some "u@example.com")
        { messages := [], chatId := some "nope" } "nc" "nm" 0 []).status ≠ 401 :=
  ⟨rfl, by decide⟩

/-- C10 amended: for a relay POST supplying an explicit nonempty `chatId`
and a last message with nonempty content, an unknown conversation id or
one owned by another user yields 401 with the store unchanged (no message
persisted); only when the id resolves to a conversation owned by the
caller does a write occur, namely the encrypted user message appended to
that conversation. -/
theorem explicit_chatid_authorization
    (enc : String → String × String) (email : String) (body : ChatPostBody)
    (cid newChatId newMsgId : String) (now : Nat) (db : DB) (lm : ClientWireMessage)
    (hcid : body.chatId = some cid) (hcne : cid ≠ "")
    (hlast : body.messages.getLast? = some lm) (hcontent : lm.content ≠ "") :
    (findChatById db cid = none →
      (chatPOST enc (some email) body newChatId newMsgId now db).status = 401
      ∧ (chatPOST enc (some email) body newChatId newMsgId now db).db = db)
    ∧ (∀ c, findChatById db cid = some c → c.userEmail ≠ email →
      (chatPOST enc (some email) body newChatId newMsgId now db).status = 401
      ∧ (chatPOST enc (some email) body newChatId newMsgId now db).db = db)
    ∧ (∀ c, findChatById db cid = some c → c.userEmail = email →
      (chatPOST enc (some email) body newChatId newMsgId now db).status = 200
      ∧ (chatPOST enc (some email) body newChatId newMsgId now db).db =
          appendMessage db c.id
            { id := newMsgId, content := (enc lm.content).1, role := "user",
              createdAt := now, chatId := c.id, iv := (enc lm.content).2 }) := by
  refine ⟨?_, ?_, ?_⟩
  · intro h
    constructor <;> simp [chatPOST, hlast, hcontent, hcid, hcne, h]
  · intro c hc hne
    constructor <;> simp [chatPOST, hlast, hcontent, hcid, hcne, hc, hne]
  · intro c hc he
    constructor <;> simp [chatPOST, hlast, hcontent, hcid, hcne, hc, he]

/-- Witness for C10 amended: conversation `"c9"` exists but is owned by
`other@example.com`, so the caller `u@example.com` gets 401 and the store
is unchanged. -/
theorem explicit_chatid_authorization_witness :
    (chatPOST encW (some "u@example.com") bodyW "nc" "nm" 0 dbOtherW).status = 401
    ∧ (chatPOST encW (some "u@example.com") bodyW "nc" "nm" 0 dbOtherW).db = dbOtherW :=
  (explicit_chatid_authorization encW "u@example.com" bodyW "c9" "nc" "nm" 0 dbOtherW
      { role := "user", content := "hi" } rfl (by decide) rfl (by decide)).2.1
    otherChatW (by decide) (by decide)

/-! ### Client cache theorems -/

/-- C2: with `forceRefresh` false, a live cache slot and a fetch age
under five minutes, `loadChatHistory` issues no request and serves the
slot's message list and conversation id, leaving the slot and the fetch
timestamp untouched; a second call inside the freshness window again
issues no request and returns the same message list. -/
theorem cache_hit_serves_slot_without_fetch
    (st : ChatState) (slot : CacheData) (now now2 : Nat) (net net2 : HistoryNet)
    (hc : st.cache = some slot)
    (hf : now - st.lastFetchTime < CACHE_DURATION)
    (hf2 : now2 - st.lastFetchTime < CACHE_DURATION) :
    (loadChatHistory st false now net).request = none
    ∧ (loadChatHistory st false now net).state.messages = slot.messages
    ∧ (loadChatHistory st false now net).state.currentChatId = slot.chatId
    ∧ (loadChatHistory st false now net).state.cache = st.cache
    ∧ (loadChatHistory st false now net).state.lastFetchTime = st.lastFetchTime
    ∧ (loadChatHistory (loadChatHistory st false now net).state false now2 net2).request = none
    ∧ (loadChatHistory (loadChatHistory st false now net).state false now2 net2).state.messages
        = slot.messages := by
  simp [loadChatHistory, hc, hf, hf2]

/-- Witness for C2 on `stCachedW` (slot fetched at t = 100, reads at
t = 200 and t = 250). -/
theorem cache_hit_serves_slot_without_fetch_witness :
    (loadChatHistory stCachedW false 200 HistoryNet.reject).request = none
    ∧ (loadChatHistory stCachedW false 200 HistoryNet.reject).state.messages = slotW.messages
    ∧ (loadChatHistory stCachedW false 200 HistoryNet.reject).state.currentChatId = slotW.chatId
    ∧ (loadChatHistory stCachedW false 200 HistoryNet.reject).state.cache = stCachedW.cache
    ∧ (loadChatHistory stCachedW false 200 HistoryNet.reject).state.lastFetchTime
        = stCachedW.lastFetchTime
    ∧ (loadChatHistory (loadChatHistory stCachedW false 200 HistoryNet.reject).state
        false 250 HistoryNet.reject).request = none
    ∧ (loadChatHistory (loadChatHistory stCachedW false 200 HistoryNet.reject).state
        false 250 HistoryNet.reject).state.messages = slotW.messages :=
  cache_hit_serves_slot_without_fetch stCachedW slotW 200 250 HistoryNet.reject HistoryNet.reject
    rfl (by decide) (by decide)

/-! ### Optimistic send theorems -/

/-- C1 fails as stated: when the fetch itself rejects (network
unavailable), the catch block runs without ever calling
`updateMessageStatus(tempId, "failed")`, so the optimistic user message
stays `pending` instead of transitioning to `failed`, and a synthetic
assistant message is appended. -/
theorem offline_send_claim_counterexample :
    ((handleSubmit stFreshW "t1" "f1" "e1" 1000 SendOutcome.reject).messages.filter
        (fun m => m.tempId == some "t1")).map (fun m => m.status) = [some Status.pending]
    ∧ ((handleSubmit stFreshW "t1" "f1" "e1" 1000 SendOutcome.reject).messages.filter
        (fun m => m.tempId == some "t1")).map (fun m => m.status) ≠ [some Status.failed]
    ∧ ((handleSubmit stFreshW "t1" "f1" "e1" 1000 SendOutcome.reject).messages.filter
        (fun m => m.role == Role.assistant)).length = 1 := by
  refine ⟨by decide, by decide, by decide⟩

/-- C1 amended: on a send whose fetch rejects, the optimistic user
message appears immediately (state right after the insert) with status
`pending` and still has status `pending` in the final state; the catch
block appends a synthetic assistant message with status `failed`; no
streamed assistant content is added. -/
theorem offline_send_keeps_pending_and_appends_failed_assistant
    (st : ChatState) (tempId finalId errId : String) (now : Nat)
    (hinput : ¬ jsTrim st.input = "") :
    (handleSubmitTrace st tempId finalId errId now SendOutcome.reject)[1]? =
      some (submitInsert st tempId now)
    ∧ (submitInsert st tempId now).messages = st.messages ++ [submitUserMessage st tempId now]
    ∧ (submitUserMessage st tempId now).status = some Status.pending
    ∧ (handleSubmit st tempId finalId errId now SendOutcome.reject).messages =
        st.messages ++
          [submitUserMessage st tempId now,
           { id := errId, role := Role.assistant, content := errorFallbackText,
             timestamp := some now, status := some Status.failed }] := by
  refine ⟨?_, ?_, rfl, ?_⟩
  · simp [handleSubmitTrace, hinput]
  · simp [submitInsert, addMessageOptimistically]
  · simp [handleSubmit, handleSubmitTrace, hinput, appendErrorMessage,
          addMessageOptimistically, submitInsert]

/-! ### Streaming placeholder lemmas -/

theorem countStreamingIn_append (l1 l2 : List ChatMessage) :
    countStreamingIn (l1 ++ l2) = countStreamingIn l1 + countStreamingIn l2 := by
  induction l1 with
  | nil => simp [countStreamingIn]
  | cons m l ih => simp [countStreamingIn, ih, Nat.add_assoc]

theorem countStreamingIn_filter_ne (l : List ChatMessage) :
    countStreamingIn (l.filter (fun m => m.id != streamingSentinel)) = 0 := by
  induction l with
  | nil => rfl
  | cons m l ih =>
      by_cases h : m.id = streamingSentinel
      · simpa [List.filter_cons, h] using ih
      · simpa [List.filter_cons, h, countStreamingIn] using ih

theorem countStreamingIn_map_status (l : List ChatMessage) (mid : String) (stt : Status) :
    countStreamingIn (l.map (fun m =>
      if m.id = mid ∨ m.tempId = some mid then { m with status := some stt } else m)) =
    countStreamingIn l := by
  induction l with
  | nil => rfl
  | cons m l ih =>
      by_cases h : m.id = mid ∨ m.tempId = some mid <;>
        simp [countStreamingIn, h, ih]

theorem messages_applyChunkChatId (st : ChatState) (o e : Option String) :
    (applyChunkChatId st o e).messages = st.messages := by
  cases e with
  | none => rfl
  | some c => by_cases h : c = "" <;> by_cases h2 : o = none <;> simp [applyChunkChatId, h, h2]

theorem streamStep_messages_none (o : Option String) (now : Nat) (p : ChatState × String)
    (ev : StreamEvent) (hc : ev.content = none) :
    (streamStep o now p ev).1.messages = p.1.messages := by
  simp [streamStep, hc, messages_applyChunkChatId]

theorem streamStep_messages_empty (o : Option String) (now : Nat) (p : ChatState × String)
    (ev : StreamEvent) (hc : ev.content = some "") :
    (streamStep o now p ev).1.messages = p.1.messages := by
  simp [streamStep, hc, messages_applyChunkChatId]

theorem streamStep_messages_content (o : Option String) (now : Nat) (p : ChatState × String)
    (ev : StreamEvent) (c : String) (hc : ev.content = some c) (hce : c ≠ "") :
    (streamStep o now p ev).1.messages =
      p.1.messages.filter (fun m => m.id != streamingSentinel) ++
        [{ id := streamingSentinel, role := Role.assistant, content := p.2 ++ c,
           status := some Status.pending }] := by
  simp [streamStep, hc, hce, messages_applyChunkChatId, applyStreamChunk]

theorem countStreaming_streamStep (o : Option String) (now : Nat) (p : ChatState × String)
    (ev : StreamEvent) (h : countStreaming p.1 ≤ 1) :
    countStreaming (streamStep o now p ev).1 ≤ 1 := by
  unfold countStreaming
  cases hc : ev.content with
  | none => rw [streamStep_messages_none o now p ev hc]; exact h
  | some c =>
      by_cases hce : c = ""
      · rw [hce] at hc
        rw [streamStep_messages_empty o now p ev hc]
        exact h
      · rw [streamStep_messages_content o now p ev c hc hce, countStreamingIn_append,
            countStreamingIn_filter_ne]
        simp [countStreamingIn]

theorem runStream_inv (o : Option String) (now : Nat) (events : List StreamEvent)
    (p : ChatState × String) (hp : countStreaming p.1 ≤ 1) :
    (∀ s ∈ (runStream o now p events).1, countStreaming s ≤ 1)
    ∧ countStreaming (runStream o now p events).2.1 ≤ 1 := by
  induction events generalizing p with
  | nil => exact ⟨by simp [runStream], by simpa [runStream] using hp⟩
  | cons ev rest ih =>
      have hq := countStreaming_streamStep o now p ev hp
      obtain ⟨h1, h2⟩ := ih (streamStep o now p ev) hq
      refine ⟨?_, by simpa [runStream] using h2⟩
      intro s hs
      simp only [runStream, List.mem_cons] at hs
      rcases hs with rfl | hs
      · exact hq
      · exact h1 s hs

theorem ids_streamStep (o : Option String) (now : Nat) (p : ChatState × String)
    (ev : StreamEvent) (fid : String) (hfs : fid ≠ streamingSentinel)
    (hp : ∀ m ∈ p.1.messages, m.id ≠ fid) :
    ∀ m ∈ (streamStep o now p ev).1.messages, m.id ≠ fid := by
  intro m hm
  cases hc : ev.content with
  | none =>
      rw [streamStep_messages_none o now p ev hc] at hm
      exact hp m hm
  | some c =>
      by_cases hce : c = ""
      · rw [hce] at hc
        rw [streamStep_messages_empty o now p ev hc] at hm
        exact hp m hm
      · rw [streamStep_messages_content o now p ev c hc hce] at hm
        rcases List.mem_append.mp hm with h | h
        · exact hp m (List.mem_of_mem_filter h)
        · rcases List.mem_singleton.mp h with rfl
          exact fun hh => hfs hh.symm

theorem ids_runStream (o : Option String) (now : Nat) (fid : String)
    (hfs : fid ≠ streamingSentinel) (events : List StreamEvent) (p : ChatState × String)
    (hp : ∀ m ∈ p.1.messages, m.id ≠ fid) :
    ∀ m ∈ (runStream o now p events).2.1.messages, m.id ≠ fid := by
  induction events generalizing p with
  | nil => simpa [runStream] using hp
  | cons ev rest ih =>
      have hq := ids_streamStep o now p ev fid hfs hp
      simpa [runStream] using ih (streamStep o now p ev) hq

/-- C6: during a successful streamed send at most one message ever
carries the sentinel streaming id (each fragment replaces the placeholder
wholesale rather than mutating it); on stream termination the placeholder
is removed and a finalized assistant message with the fresh permanent id
and status `delivered` is appended: the final state has no sentinel
message, ends in the finalized message, and holds exactly one message
under the fresh id. -/
theorem streaming_sentinel_unique_and_finalized
    (st : ChatState) (tempId finalId errId : String) (now : Nat) (events : List StreamEvent)
    (hinput : ¬ jsTrim st.input = "")
    (hclean : countStreaming st = 0)
    (hfresh : ∀ m ∈ st.messages, m.id ≠ finalId)
    (hft : tempId ≠ finalId)
    (hfs : finalId ≠ streamingSentinel) :
    (∀ s ∈ handleSubmitTrace st tempId finalId errId now (SendOutcome.stream events),
        countStreaming s ≤ 1)
    ∧ countStreaming (handleSubmit st tempId finalId errId now (SendOutcome.stream events)) = 0
    ∧ (∃ content,
        (handleSubmit st tempId finalId errId now (SendOutcome.stream events)).messages.getLast?
          = some { id := finalId, role := Role.assistant, content := content,
                   timestamp := some now, status := some Status.delivered })
    ∧ ((handleSubmit st tempId finalId errId now (SendOutcome.stream events)).messages.filter
        (fun m => m.id == finalId)).length = 1 := by
  have hins : (submitInsert st tempId now).messages =
      st.messages ++ [submitUserMessage st tempId now] := by
    simp [submitInsert, addMessageOptimistically]
  have htrace : handleSubmitTrace st tempId finalId errId now (SendOutcome.stream events) =
      [st, submitInsert st tempId now,
       updateMessageStatus (submitInsert st tempId now) tempId Status.delivered now]
      ++ (runStream st.currentChatId now
            (updateMessageStatus (submitInsert st tempId now) tempId Status.delivered now, "")
            events).1
      ++ [{ finalizeStream
              (runStream st.currentChatId now
                (updateMessageStatus (submitInsert st tempId now) tempId Status.delivered now, "")
                events).2.1
              finalId
              (runStream st.currentChatId now
                (updateMessageStatus (submitInsert st tempId now) tempId Status.delivered now, "")
                events).2.2
              now with isLoading := false }] := by
    simp only [handleSubmitTrace, if_neg hinput]
  have hfinal : handleSubmit st tempId finalId errId now (SendOutcome.stream events) =
      { finalizeStream
          (runStream st.currentChatId now
            (updateMessageStatus (submitInsert st tempId now) tempId Status.delivered now, "")
            events).2.1
          finalId
          (runStream st.currentChatId now
            (updateMessageStatus (submitInsert st tempId now) tempId Status.delivered now, "")
            events).2.2
          now with isLoading := false } := by
    unfold handleSubmit
    rw [htrace]
    exact List.getLastD_concat _ _ _
  rw [hfinal, htrace]
  set st1 := submitInsert st tempId now with hst1
  set stD := updateMessageStatus st1 tempId Status.delivered now with hstD
  set r := runStream st.currentChatId now (stD, "") events with hr
  have hc1 : countStreaming st1 ≤ 1 := by
    have heq : countStreaming st1 =
        countStreamingIn st.messages + (if tempId = streamingSentinel then 1 else 0) := by
      rw [hst1]
      simp [submitInsert, addMessageOptimistically, countStreaming, countStreamingIn_append,
            countStreamingIn, submitUserMessage]
    have hclean2 : countStreamingIn st.messages = 0 := hclean
    rw [heq, hclean2]
    split <;> simp
  have hcD : countStreaming stD ≤ 1 := by
    have heq : countStreaming stD = countStreaming st1 := by
      rw [hstD]
      simp [updateMessageStatus, countStreaming, countStreamingIn_map_status]
    rw [heq]
    exact hc1
  obtain ⟨htr, hfinc⟩ := runStream_inv st.currentChatId now events (stD, "") hcD
  rw [← hr] at htr hfinc
  have hid_f : ∀ (m : ChatMessage), (if m.id = tempId ∨ m.tempId = some tempId
      then { m with status := some Status.delivered } else m).id = m.id := by
    intro m
    split <;> rfl
  have hidsD : ∀ m ∈ stD.messages, m.id ≠ finalId := by
    intro m hm
    rw [hstD] at hm
    simp only [updateMessageStatus] at hm
    obtain ⟨m0, hm0, rfl⟩ := List.mem_map.mp hm
    rw [hid_f m0]
    rw [hst1, hins] at hm0
    rcases List.mem_append.mp hm0 with h | h
    · exact hfresh m0 h
    · rcases List.mem_singleton.mp h with rfl
      exact hft
  have hidsR : ∀ m ∈ r.2.1.messages, m.id ≠ finalId := by
    have h := ids_runStream st.currentChatId now finalId hfs events (stD, "") hidsD
    rw [← hr] at h
    exact h
  have hc0 : countStreaming { finalizeStream r.2.1 finalId r.2.2 now with isLoading := false }
      = 0 := by
    simp [countStreaming, finalizeStream, countStreamingIn_append, countStreamingIn_filter_ne,
          countStreamingIn, hfs]
  have hlast : ({ finalizeStream r.2.1 finalId r.2.2 now with
      isLoading := false } : ChatState).messages.getLast? =
      some { id := finalId, role := Role.assistant, content := r.2.2,
             timestamp := some now, status := some Status.delivered } := by
    simp [finalizeStream]
  have hnil : (r.2.1.messages.filter (fun m => m.id != streamingSentinel)).filter
      (fun m => m.id == finalId) = [] := by
    rw [List.filter_eq_nil_iff]
    intro a ha
    have hmem := List.mem_of_mem_filter ha
    simpa using hidsR a hmem
  have hcount : (({ finalizeStream r.2.1 finalId r.2.2 now with
      isLoading := false } : ChatState).messages.filter
      (fun m => m.id == finalId)).length = 1 := by
    simp [finalizeStream, List.filter_append, hnil]
  refine ⟨?_, hc0, ⟨r.2.2, hlast⟩, hcount⟩
  intro s hs
  simp only [List.append_assoc, List.mem_append, List.mem_cons, List.mem_singleton,
    List.not_mem_nil, or_false] at hs
  rcases hs with (rfl | rfl | rfl) | hs | rfl
  · simp [hclean]
  · exact hc1
  · exact hcD
  · exact htr s hs
  · simp [hc0]

/-- Witness for C6: a send of `"hello"` streaming the fragments `"Hel"`
and `"lo!"`. -/
theorem streaming_sentinel_unique_and_finalized_witness :
    (∀ s ∈ handleSubmitTrace stFreshW "t1" "f1" "e1" 1000
        (SendOutcome.stream [{ content := some "Hel", chatId := some "c1" },
                             { content := some "lo!" }]),
        countStreaming s ≤ 1)
    ∧ countStreaming (handleSubmit stFreshW "t1" "f1" "e1" 1000
        (SendOutcome.stream [{ content := some "Hel", chatId := some "c1" },
                             { content := some "lo!" }])) = 0
    ∧ (∃ content,
        (handleSubmit stFreshW "t1" "f1" "e1" 1000
          (SendOutcome.stream [{ content := some "Hel", chatId := some "c1" },
                               { content := some "lo!" }])).messages.getLast?
          = some { id := "f1", role := Role.assistant, content := content,
                   timestamp := some 1000, status := some Status.delivered })
    ∧ ((handleSubmit stFreshW "t1" "f1" "e1" 1000
        (SendOutcome.stream [{ content := some "Hel", chatId := some "c1" },
                             { content := some "lo!" }])).messages.filter
        (fun m => m.id == "f1")).length = 1 :=
  streaming_sentinel_unique_and_finalized stFreshW "t1" "f1" "e1" 1000
    [{ content := some "Hel", chatId := some "c1" }, { content := some "lo!" }]
    (by decide) (by decide) (by simp [stFreshW]) (by decide) (by decide)

/-- Witness for C1 amended at the fresh state with `"hello"` typed. -/
theorem offline_send_keeps_pending_and_appends_failed_assistant_witness :
    (handleSubmitTrace stFreshW "t1" "f1" "e1" 1000 SendOutcome.reject)[1]? =
      some (submitInsert stFreshW "t1" 1000)
    ∧ (submitInsert stFreshW "t1" 1000).messages =
        stFreshW.messages ++ [submitUserMessage stFreshW "t1" 1000]
    ∧ (submitUserMessage stFreshW "t1" 1000).status = some Status.pending
    ∧ (handleSubmit stFreshW "t1" "f1" "e1" 1000 SendOutcome.reject).messages =
        stFreshW.messages ++
          [submitUserMessage stFreshW "t1" 1000,
           { id := "e1", role := Role.assistant, content := errorFallbackText,
             timestamp := some 1000, status := some Status.failed }] :=
  offline_send_keeps_pending_and_appends_failed_assistant stFreshW "t1" "f1" "e1" 1000
    (by decide)

end ChatApp
